import Mathlib

/-!
Verification of the victron-api-HA-integration repository
(`custom_components/victron_cloud`): a shallow embedding of the
derivation pipeline (sensors.py), the batch-extraction and error
classification of the API client (api.py), the coordinator's error
mapping (coordinator.py) and the setup-time descriptor selection and
attribute-union computation (`__init__.py`), together with theorems
settling the frozen claims about them.

Conventions of the embedding:
* Python scalar values (including `None`) are modelled by the inductive
  type `PyVal`; JSON numbers (Python int/float) are modelled as exact
  rationals, so floating-point rounding is abstracted away while all
  null/shape/zero structure is kept.
* Python dicts are association lists; `dict.get` returns `PyVal.pNone`
  when the key is absent, mirroring Python.
* `float(x)` / `int(x)` are modelled by `pyFloat` / `pyInt`, returning
  `none` exactly when the Python call raises `TypeError`/`ValueError`
  (the string grammar models the core of Python's numeric literals:
  optional sign, digits, decimal point, exponent; `inf`/`nan`/underscore
  forms are outside the modelled universe).
* The aiohttp transport is an external collaborator: its outcome is an
  input (`Except HttpFailure payload`) to the embedded client functions.
-/

/-- A Python/JSON value as it can appear in API payloads and raw batches:
`None`, a boolean, a number (modelled as an exact rational), a string,
a list, or an object/dict. -/
inductive PyVal where
  | pNone : PyVal
  | pBool (b : Bool) : PyVal
  | num (q : ℚ) : PyVal
  | pStr (s : String) : PyVal
  | pList (xs : List PyVal) : PyVal
  | pDict (entries : List (String × PyVal)) : PyVal

/-- Numeric value of a decimal digit character. -/
def digitVal (c : Char) : Nat := c.toNat - 48

/-- Value of a list of decimal digit characters, most significant first. -/
def digitsToNat (cs : List Char) : Nat :=
  cs.foldl (fun acc c => 10 * acc + digitVal c) 0

/-- Strip an optional leading sign; returns (isNegative, rest). -/
def splitSign : List Char → Bool × List Char
  | '-' :: rest => (true, rest)
  | '+' :: rest => (false, rest)
  | cs => (false, cs)

/-- Models Python `int(s)` on a string: an optional sign followed by at
least one decimal digit; anything else raises `ValueError`, modelled as
`none`. -/
def parsePyIntStr (s : String) : Option Int :=
  let p := splitSign s.toList
  if p.2 ≠ [] ∧ p.2.all (fun c => c.isDigit) then
    some (if p.1 then -(digitsToNat p.2 : Int) else (digitsToNat p.2 : Int))
  else none

/-- Split a character list at the first occurrence of `target`;
`none` when `target` does not occur. -/
def splitAtChar (target : Char) : List Char → Option (List Char × List Char)
  | [] => none
  | c :: rest =>
    if c == target then some ([], rest)
    else
      match splitAtChar target rest with
      | some p => some (c :: p.1, p.2)
      | none => none

/-- Models Python `float(s)` on a string: optional sign, integer digits,
optional fractional digits after a dot, optional exponent, with at least
one mantissa digit; a string outside this grammar raises `ValueError`,
modelled as `none`. -/
def parsePyFloatStr (s : String) : Option ℚ :=
  let p := splitSign s.toList
  let mexp : List Char × Option (List Char) :=
    match splitAtChar 'e' p.2 with
    | some q => (q.1, some q.2)
    | none =>
      match splitAtChar 'E' p.2 with
      | some q => (q.1, some q.2)
      | none => (p.2, none)
  let ipfp : List Char × List Char :=
    match splitAtChar '.' mexp.1 with
    | some q => (q.1, q.2)
    | none => (mexp.1, [])
  if (ipfp.1 ++ ipfp.2) ≠ [] ∧ ipfp.1.all (fun c => c.isDigit) ∧
      ipfp.2.all (fun c => c.isDigit) then
    let mant : ℚ := (digitsToNat (ipfp.1 ++ ipfp.2) : ℚ) / ((10 : ℚ) ^ ipfp.2.length)
    match mexp.2 with
    | none => some (if p.1 then -mant else mant)
    | some es =>
      let ep := splitSign es
      if ep.2 ≠ [] ∧ ep.2.all (fun c => c.isDigit) then
        let e : Int := if ep.1 then -(digitsToNat ep.2 : Int) else (digitsToNat ep.2 : Int)
        some (if p.1 then -(mant * (10 : ℚ) ^ e) else mant * (10 : ℚ) ^ e)
      else none
  else none

/-- Models Python `float(x)`: numbers and booleans convert, strings are
parsed, and `None`/lists/dicts raise `TypeError` (modelled as `none`). -/
def pyFloat : PyVal → Option ℚ
  | .num q => some q
  | .pBool b => some (if b then 1 else 0)
  | .pStr s => parsePyFloatStr s
  | _ => none

/-- Models Python `int(x)`: truncation toward zero for numbers, 0/1 for
booleans, integer-literal parsing for strings, `TypeError` otherwise. -/
def pyInt : PyVal → Option Int
  | .num q => some (Int.tdiv q.num (q.den : Int))
  | .pBool b => some (if b then 1 else 0)
  | .pStr s => parsePyIntStr s
  | _ => none

/-- Models the Python test `x is None`. -/
def pyIsNone : PyVal → Bool
  | .pNone => true
  | _ => false

/-- Models the Python test `x == 0` (used by `den in (None, 0)`):
true for the number 0 and for `False`, false for every other value
(in particular for strings, per Python equality). -/
def pyEqZero : PyVal → Bool
  | .num q => q == 0
  | .pBool b => !b
  | _ => false

/-- A raw batch: the Python dict mapping attribute ID to the latest raw
value, as produced by `VictronApiClient.async_get_latest_values`. -/
abbrev RawBatch := List (Int × PyVal)

/-- Models `data.get(key)` on a raw batch: the stored value, or Python
`None` when the key is absent. -/
def dict_get (data : RawBatch) (key : Int) : PyVal :=
  match data.find? (fun p => p.1 == key) with
  | some p => p.2
  | none => .pNone

/-- Models `key in data` on a raw batch. -/
def dict_hasKey (data : RawBatch) (key : Int) : Bool :=
  (data.find? (fun p => p.1 == key)).isSome

/-- Models `data[key] = value` on a raw batch dict: later writes to the
same key overwrite earlier ones. -/
def dict_insert (data : RawBatch) (key : Int) (v : PyVal) : RawBatch :=
  (key, v) :: data.filter (fun p => p.1 != key)

/-- Models `d.get(key)` on a string-keyed JSON object (`none` = absent). -/
def sdict_find (entries : List (String × PyVal)) (key : String) : Option PyVal :=
  match entries.find? (fun p => p.1 == key) with
  | some p => some p.2
  | none => none

/-- sensors.py lines 43-54: `BATTERY_STATE_MAP`, reproduced verbatim. -/
def BATTERY_STATE_MAP : List (Int × String) :=
  [(0, "Off"), (2, "Fault"), (3, "Bulk"), (4, "Absorption"), (5, "Float"),
   (6, "Storage"), (7, "Equalize"), (245, "Off"), (247, "Equalize"),
   (252, "Ext. Control")]

/-- sensors.py lines 56-60: `LOAD_STATE_MAP`, reproduced verbatim. -/
def LOAD_STATE_MAP : List (Int × String) :=
  [(0, "Off"), (1, "On"), (2, "Fault")]

/-- sensors.py lines 63-71: `_calculate_ratio(numerator, denominator, data)`.
Returns `None` when the numerator is `None`, the denominator is `None` or
`== 0`, or either `float()` conversion raises (including the
`ZeroDivisionError` from a string denominator parsing to zero). -/
def _calculate_ratio (numerator denominator : Int) (data : RawBatch) : PyVal :=
  let num := dict_get data numerator
  let den := dict_get data denominator
  if pyIsNone num || (pyIsNone den || pyEqZero den) then .pNone
  else
    match pyFloat num, pyFloat den with
    | some a, some b => if b == 0 then .pNone else .num (a / b)
    | _, _ => .pNone

/-- sensors.py lines 74-82: `_calculate_product(factor_a, factor_b, data)`.
Returns `None` when either input is `None` or either `float()`
conversion raises. -/
def _calculate_product (factor_a factor_b : Int) (data : RawBatch) : PyVal :=
  let a := dict_get data factor_a
  let b := dict_get data factor_b
  if pyIsNone a || pyIsNone b then .pNone
  else
    match pyFloat a, pyFloat b with
    | some x, some y => .num (x * y)
    | _, _ => .pNone

/-- sensors.py lines 85-92: `_map_state(mapping, attribute_id, data)`.
`None` raw value maps to `None`; otherwise `mapping.get(int(raw),
"Unknown")`, with a failing `int()` conversion caught as "Unknown". -/
def _map_state (mapping : List (Int × String)) (attribute_id : Int)
    (data : RawBatch) : PyVal :=
  let raw := dict_get data attribute_id
  if pyIsNone raw then .pNone
  else
    match pyInt raw with
    | some n =>
      .pStr (match mapping.find? (fun p => p.1 == n) with
        | some p => p.2
        | none => "Unknown")
    | none => .pStr "Unknown"

/-- sensors.py lines 33-40: `VictronSensorEntityDescription` — the metric
descriptor fields the pipeline logic reads (presentation-only fields such
as unit, icon and device class are omitted). -/
structure VictronSensorEntityDescription where
  key : String
  name : String
  attribute_id : Option Int
  requires : List Int
  value_fn : Option (RawBatch → PyVal)
  available_fn : Option (RawBatch → Bool)

/-- sensors.py lines 96-105: the `solar_power` descriptor. -/
def solar_power_desc : VictronSensorEntityDescription :=
  ⟨"solar_power", "Victron Solar Power", some 442, [], none, none⟩

/-- sensors.py lines 106-115: the `solar_voltage` descriptor. -/
def solar_voltage_desc : VictronSensorEntityDescription :=
  ⟨"solar_voltage", "Victron Solar Voltage", some 86, [], none, none⟩

/-- sensors.py lines 116-126: the `solar_current` descriptor
(derived: `value_fn = _calculate_ratio(442, 86, data)`, no attribute id). -/
def solar_current_desc : VictronSensorEntityDescription :=
  ⟨"solar_current", "Victron Solar Current", none, [442, 86],
    some (fun data => _calculate_ratio 442 86 data), none⟩

/-- sensors.py lines 127-136: the `battery_current` descriptor. -/
def battery_current_desc : VictronSensorEntityDescription :=
  ⟨"battery_current", "Victron Battery Current", some 82, [], none, none⟩

/-- sensors.py lines 137-146: the `battery_voltage` descriptor. -/
def battery_voltage_desc : VictronSensorEntityDescription :=
  ⟨"battery_voltage", "Victron Battery Voltage", some 81, [], none, none⟩

/-- sensors.py lines 147-154: the `battery_state` descriptor
(lookup table over attribute 85). -/
def battery_state_desc : VictronSensorEntityDescription :=
  ⟨"battery_state", "Victron Battery State", some 85, [],
    some (fun data => _map_state BATTERY_STATE_MAP 85 data), none⟩

/-- sensors.py lines 155-165: the `battery_power` descriptor
(derived: `value_fn = _calculate_product(81, 82, data)`, no attribute id). -/
def battery_power_desc : VictronSensorEntityDescription :=
  ⟨"battery_power", "Victron Battery Power", none, [81, 82],
    some (fun data => _calculate_product 81 82 data), none⟩

/-- sensors.py lines 166-175: the `load_current` descriptor. -/
def load_current_desc : VictronSensorEntityDescription :=
  ⟨"load_current", "Victron Load Current", some 242, [], none, none⟩

/-- sensors.py lines 176-183: the `load_state` descriptor
(lookup table over attribute 241). -/
def load_state_desc : VictronSensorEntityDescription :=
  ⟨"load_state", "Victron Load State", some 241, [],
    some (fun data => _map_state LOAD_STATE_MAP 241 data), none⟩

/-- sensors.py lines 184-194: the `load_power` descriptor
(derived: `value_fn = _calculate_product(81, 242, data)`, no attribute id). -/
def load_power_desc : VictronSensorEntityDescription :=
  ⟨"load_power", "Victron Load Power", none, [81, 242],
    some (fun data => _calculate_product 81 242 data), none⟩

/-- sensors.py lines 195-204: the `solar_energy_today` descriptor. -/
def solar_energy_today_desc : VictronSensorEntityDescription :=
  ⟨"solar_energy_today", "Victron Solar Energy Today", some 94, [], none, none⟩

/-- sensors.py lines 95-205: `SENSOR_DESCRIPTIONS`, the full catalog in
declared order. -/
def SENSOR_DESCRIPTIONS : List VictronSensorEntityDescription :=
  [solar_power_desc, solar_voltage_desc, solar_current_desc,
   battery_current_desc, battery_voltage_desc, battery_state_desc,
   battery_power_desc, load_current_desc, load_state_desc,
   load_power_desc, solar_energy_today_desc]

/-- sensors.py lines 207-209: lookup in `SENSOR_MAP` (`SENSOR_MAP.get(key)`;
keys are unique in the catalog, so first match equals the dict entry). -/
def SENSOR_MAP_find (key : String) : Option VictronSensorEntityDescription :=
  SENSOR_DESCRIPTIONS.find? (fun d => d.key == key)

/-- sensors.py line 211: `DEFAULT_SENSOR_KEYS`, all catalog keys in
declared order. -/
def DEFAULT_SENSOR_KEYS : List String :=
  SENSOR_DESCRIPTIONS.map (fun d => d.key)

/-- sensors.py lines 258-271: `VictronSensor.native_value` — the value_fn
when set, else the direct batch lookup when an attribute id is set, else
`None`. -/
def VictronSensor_native_value (description : VictronSensorEntityDescription)
    (data : RawBatch) : PyVal :=
  match description.value_fn with
  | some f => f data
  | none =>
    match description.attribute_id with
    | some aid => dict_get data aid
    | none => .pNone

/-- sensors.py lines 273-286: `VictronSensor.available` — the available_fn
when set; else, when an attribute id is set, presence of that id with a
non-`None` value; else `super().available`, i.e. the inherited
`CoordinatorEntity.available`, which is the coordinator's
`last_update_success` flag (external Home Assistant collaborator,
passed here as the `last_update_success` argument). -/
def VictronSensor_available (last_update_success : Bool)
    (description : VictronSensorEntityDescription) (data : RawBatch) : Bool :=
  match description.available_fn with
  | some f => f data
  | none =>
    match description.attribute_id with
    | some aid => dict_hasKey data aid && !(pyIsNone (dict_get data aid))
    | none => last_update_success

/-- sensors.py lines 288-299: `VictronSensor.extra_state_attributes` — the
diagnostic attributes exposed for attribute-ID-backed metrics. -/
def VictronSensor_extra_state_attributes
    (description : VictronSensorEntityDescription) (data : RawBatch) :
    List (String × PyVal) :=
  match description.attribute_id with
  | some aid => [("attribute_id", .num (aid : ℚ)), ("raw_value", dict_get data aid)]
  | none => []

/-- api.py: outcome of the aiohttp request, an external collaborator:
an HTTP error response with its status (`ClientResponseError`), or any
other client/network failure (`ClientError`). -/
inductive HttpFailure where
  | responseError (status : Nat) : HttpFailure
  | clientError : HttpFailure

/-- api.py lines 15-20: the typed error hierarchy — `VictronApiAuthError`
(authentication) is distinct from the general `VictronApiError`. -/
inductive VictronApiErr where
  | VictronApiAuthError (msg : String) : VictronApiErr
  | VictronApiError (msg : String) : VictronApiErr

/-- True exactly on the authentication error kind. -/
def VictronApiErr.isAuth : VictronApiErr → Bool
  | .VictronApiAuthError _ => true
  | .VictronApiError _ => false

/-- api.py lines 119-123: the latest value of one attribute series:
the second component of the last entry of the series list when that last
entry is a list of length at least 2; `None` when the series is empty,
not a list, or its last entry is not such a list. -/
def seriesLatest (values : PyVal) : PyVal :=
  match values with
  | .pList vs =>
    match vs.getLast? with
    | some (.pList (_ :: v :: _)) => v
    | _ => .pNone
  | _ => .pNone

/-- api.py lines 112-126: the extraction loop over the `data` mapping —
keys that fail `int()` are skipped, every other key is written with its
series' latest value. -/
def extractLoop : List (String × PyVal) → RawBatch → RawBatch
  | [], acc => acc
  | (k, values) :: rest, acc =>
    match parsePyIntStr k with
    | none => extractLoop rest acc
    | some key => extractLoop rest (dict_insert acc key (seriesLatest values))

/-- api.py lines 112-126: the raw batch extracted from a response `data`
mapping. -/
def latestValuesOfData (data : List (String × PyVal)) : RawBatch :=
  extractLoop data []

/-- api.py lines 82-126: `VictronApiClient.async_get_latest_values`,
modelled over the transport outcome: HTTP statuses 401/403 raise
`VictronApiAuthError`, other response errors and client errors raise
`VictronApiError`; on success the payload envelope is checked
(`records` defaulting to an empty dict must be a dict, `records["data"]`
must be a dict) and the batch is extracted from the data mapping. -/
def async_get_latest_values (resp : Except HttpFailure (List (String × PyVal))) :
    Except VictronApiErr RawBatch :=
  match resp with
  | .error (.responseError status) =>
    if status == 401 || status == 403 then
      .error (.VictronApiAuthError "Invalid API token")
    else .error (.VictronApiError "Error fetching attribute values")
  | .error .clientError =>
    .error (.VictronApiError "Error communicating with Victron API")
  | .ok payload =>
    let records :=
      match sdict_find payload "records" with
      | some r => r
      | none => .pDict []
    match records with
    | .pDict recordEntries =>
      match sdict_find recordEntries "data" with
      | some (.pDict dataEntries) => .ok (latestValuesOfData dataEntries)
      | _ => .error (.VictronApiError "Unexpected data payload from Victron API")
    | _ => .error (.VictronApiError "Unexpected response structure for attribute values")

/-- api.py lines 40-66: `VictronApiClient.async_get_installations`,
modelled over the transport outcome: same 401/403 classification; on
success `records` must be a list, and its dict items carrying an
`idSite` key are kept. -/
def async_get_installations (resp : Except HttpFailure (List (String × PyVal))) :
    Except VictronApiErr (List PyVal) :=
  match resp with
  | .error (.responseError status) =>
    if status == 401 || status == 403 then
      .error (.VictronApiAuthError "Invalid API token")
    else .error (.VictronApiError "Error fetching installations")
  | .error .clientError =>
    .error (.VictronApiError "Error communicating with Victron API")
  | .ok payload =>
    match sdict_find payload "records" with
    | some (.pList records) =>
      .ok (records.filter (fun item =>
        match item with
        | .pDict entries => (sdict_find entries "idSite").isSome
        | _ => false))
    | _ => .error (.VictronApiError "Unexpected response while listing installations")

/-- coordinator.py: the errors `_async_update_data` can raise —
`ConfigEntryAuthFailed` (fatal, requires re-authentication) or
`UpdateFailed` (transient), both from the Home Assistant framework. -/
inductive CoordinatorFailure where
  | ConfigEntryAuthFailed : CoordinatorFailure
  | UpdateFailed (msg : String) : CoordinatorFailure

/-- coordinator.py lines 52-62: `VictronDataUpdateCoordinator._async_update_data`
— a successful fetch is returned as the new batch, `VictronApiAuthError`
becomes `ConfigEntryAuthFailed`, any other `VictronApiError` becomes
`UpdateFailed`. -/
def _async_update_data (fetch : Except VictronApiErr RawBatch) :
    Except CoordinatorFailure RawBatch :=
  match fetch with
  | .ok data => .ok data
  | .error (.VictronApiAuthError _) => .error .ConfigEntryAuthFailed
  | .error (.VictronApiError msg) =>
    .error (.UpdateFailed ("Error updating Victron data: " ++ msg))

/-- State of the update coordinator visible to consumers: the cached raw
batch snapshot (absent before the first success), the
`last_update_success` flag, and whether a re-authentication flow has been
triggered. -/
structure CoordinatorState where
  data : Option RawBatch
  last_update_success : Bool
  reauth_required : Bool

/-- One refresh cycle: `_async_update_data` (coordinator.py lines 52-62)
run under the Home Assistant `DataUpdateCoordinator` framework contract
(external collaborator): a success replaces the cached batch wholesale
and marks the update successful; `ConfigEntryAuthFailed` keeps the old
snapshot, marks the update failed and triggers re-authentication
(fatal for the configuration); `UpdateFailed` keeps the old snapshot and
marks the update failed, leaving the schedule to retry at the next tick. -/
def coordinatorTick (st : CoordinatorState)
    (fetch : Except VictronApiErr RawBatch) : CoordinatorState :=
  match _async_update_data fetch with
  | .ok newData => ⟨some newData, true, false⟩
  | .error .ConfigEntryAuthFailed => ⟨st.data, false, true⟩
  | .error (.UpdateFailed _) => ⟨st.data, false, st.reauth_required⟩

/-- init lines 41-44: selection of the active descriptors from the
configured key list (`none` models an unset option, defaulting to
`DEFAULT_SENSOR_KEYS`): unknown keys are filtered out against the
catalog, and an empty result falls back to the full default list. -/
def selectedDescriptions (configSensors : Option (List String)) :
    List VictronSensorEntityDescription :=
  let selected_keys := configSensors.getD DEFAULT_SENSOR_KEYS
  let descriptions := selected_keys.filterMap (fun key => SENSOR_MAP_find key)
  if descriptions.isEmpty then
    DEFAULT_SENSOR_KEYS.filterMap (fun key => SENSOR_MAP_find key)
  else descriptions

/-- init lines 48-53: the attribute IDs requested by the coordinator —
`sorted({*direct attribute ids, *requires lists})`, i.e. the sorted
deduplicated union of every active descriptor's direct attribute id and
dependency list. -/
def computeAttributeIds (descriptions : List VictronSensorEntityDescription) :
    List Int :=
  List.insertionSort (fun a b => a ≤ b)
    ((descriptions.filterMap (fun d => d.attribute_id) ++
      descriptions.flatMap (fun d => d.requires)).dedup)

/-! Helper lemmas about the Python conversion primitives. -/

theorem pyFloat_of_isNone (v : PyVal) (h : pyIsNone v = true) : pyFloat v = none := by
  cases v <;> simp_all [pyIsNone, pyFloat]

theorem pyIsNone_of_float (v : PyVal) (x : ℚ) (h : pyFloat v = some x) :
    pyIsNone v = false := by
  cases v <;> simp_all [pyIsNone, pyFloat]

theorem pyFloat_of_eqZero (v : PyVal) (h : pyEqZero v = true) : pyFloat v = some 0 := by
  cases v <;> simp_all [pyEqZero, pyFloat]

theorem pyEqZero_of_float_ne (v : PyVal) (b : ℚ) (h : pyFloat v = some b)
    (hb : b ≠ 0) : pyEqZero v = false := by
  cases v <;> simp_all [pyEqZero, pyFloat]
  rename_i b'
  cases b' <;> simp_all

/-- C4: the battery-state lookup descriptor logic (`_map_state` with
`BATTERY_STATE_MAP` on attribute 85): raw value 3 yields "Bulk", raw
value 999 (absent from the table) yields the fallback "Unknown", and an
absent or null raw value yields null. -/
theorem claim_C4_battery_state_lookup :
    _map_state BATTERY_STATE_MAP 85 [(85, PyVal.num 3)] = PyVal.pStr "Bulk" ∧
    _map_state BATTERY_STATE_MAP 85 [(85, PyVal.num 999)] = PyVal.pStr "Unknown" ∧
    _map_state BATTERY_STATE_MAP 85 [] = PyVal.pNone ∧
    _map_state BATTERY_STATE_MAP 85 [(85, PyVal.pNone)] = PyVal.pNone :=
  ⟨rfl, rfl, rfl, rfl⟩

/-- C1 counterexample: for the derived metric `solar_current` (value_fn
set, no attribute_id, no available_fn) with attribute 86 absent from the
batch and a healthy coordinator (`last_update_success = true`), the
sensor is available even though its derivation function returns null —
so availability is not equivalent to the derivation returning non-null. -/
theorem claim_C1_counterexample :
    ¬ (VictronSensor_available true solar_current_desc [] = true ↔
       VictronSensor_native_value solar_current_desc [] ≠ PyVal.pNone) := by
  intro h
  exact (h.mp rfl) rfl

/-- C1 amended: for every descriptor with no available_fn and no
attribute_id (the derived metrics `solar_current`, `battery_power`,
`load_power`), availability equals the inherited coordinator
availability (`last_update_success`) and is independent of the batch and
of the derivation function's result; in particular, with attribute 86
absent but the last update successful, `solar_current` is available with
a null value. -/
theorem claim_C1_derived_availability (d : VictronSensorEntityDescription)
    (h1 : d.available_fn = none) (h2 : d.attribute_id = none)
    (success : Bool) (data : RawBatch) :
    VictronSensor_available success d data = success := by
  simp [VictronSensor_available, h1, h2]

/-- Witness for C1 amended: `solar_current` on the empty batch with a
healthy coordinator is available, while its value is null. -/
theorem claim_C1_derived_availability_witness :
    VictronSensor_available true solar_current_desc [] = true ∧
    VictronSensor_native_value solar_current_desc [] = PyVal.pNone :=
  ⟨claim_C1_derived_availability solar_current_desc rfl rfl true [], rfl⟩

/-- C3 counterexample: at the batch `{81: "x", 82: 1}` both product
inputs are non-null, yet `_calculate_product(81, 82, ·)` returns null
(the `float("x")` conversion fails), so "null iff either input is null"
is false as stated. -/
theorem claim_C3_counterexample :
    ¬ (_calculate_product 81 82 [(81, PyVal.pStr "x"), (82, PyVal.num 1)] = PyVal.pNone ↔
       (dict_get [(81, PyVal.pStr "x"), (82, PyVal.num 1)] 81 = PyVal.pNone ∨
        dict_get [(81, PyVal.pStr "x"), (82, PyVal.num 1)] 82 = PyVal.pNone)) := by
  intro h
  rcases h.mp rfl with h1 | h2
  · exact PyVal.noConfusion h1
  · exact PyVal.noConfusion h2

/-- C3 amended: the product value is null iff either input is null or
fails the `float()` conversion (a type-mismatched input is treated as
null, as for the ratio); otherwise it equals the product of the two
converted values. -/
theorem claim_C3_product (data : RawBatch) (a b : Int) :
    (_calculate_product a b data = PyVal.pNone ↔
      pyFloat (dict_get data a) = none ∨ pyFloat (dict_get data b) = none) ∧
    ∀ x y : ℚ, pyFloat (dict_get data a) = some x →
      pyFloat (dict_get data b) = some y →
      _calculate_product a b data = PyVal.num (x * y) := by
  constructor
  · unfold _calculate_product
    rcases hfa : pyFloat (dict_get data a) with _ | x
    · rcases hna : pyIsNone (dict_get data a) <;> simp [hna, hfa]
    · have hna := pyIsNone_of_float _ _ hfa
      rcases hfb : pyFloat (dict_get data b) with _ | y
      · rcases hnb : pyIsNone (dict_get data b) <;> simp [hna, hnb, hfa, hfb]
      · have hnb := pyIsNone_of_float _ _ hfb
        simp [hna, hnb, hfa, hfb]
  · intro x y hx hy
    unfold _calculate_product
    simp [pyIsNone_of_float _ _ hx, pyIsNone_of_float _ _ hy, hx, hy]

/-- Witness for C3 amended: batch `{81: 3, 82: 4}` gives battery power
12; batch `{81: "x", 82: 1}` gives null. -/
theorem claim_C3_product_witness :
    _calculate_product 81 82 [(81, PyVal.num 3), (82, PyVal.num 4)] =
      PyVal.num ((3 : ℚ) * 4) ∧
    _calculate_product 81 82 [(81, PyVal.pStr "x"), (82, PyVal.num 1)] = PyVal.pNone :=
  ⟨(claim_C3_product [(81, PyVal.num 3), (82, PyVal.num 4)] 81 82).2 3 4 rfl rfl,
   (claim_C3_product [(81, PyVal.pStr "x"), (82, PyVal.num 1)] 81 82).1.mpr
     (Or.inl rfl)⟩

/-- C2: ratio semantics of `_calculate_ratio`. The result is null exactly
when the numerator is null, the denominator is null, or the denominator
is (or converts to) zero — where, per the claim's own proviso, a
type-mismatched (non-numeric) input is treated as null, formalised as
the `float()` conversion `pyFloat` returning `none`; otherwise the
result is the quotient of the converted values (numbers are modelled as
exact rationals). The embedded function is total, so the computation
never raises. -/
theorem claim_C2_ratio (data : RawBatch) (n d : Int) :
    (_calculate_ratio n d data = PyVal.pNone ↔
      pyFloat (dict_get data n) = none ∨ pyFloat (dict_get data d) = none ∨
        pyFloat (dict_get data d) = some 0) ∧
    ∀ a b : ℚ, pyFloat (dict_get data n) = some a →
      pyFloat (dict_get data d) = some b → b ≠ 0 →
      _calculate_ratio n d data = PyVal.num (a / b) := by
  constructor
  · unfold _calculate_ratio
    rcases hfn : pyFloat (dict_get data n) with _ | x
    · rcases hnn : pyIsNone (dict_get data n)
      · rcases hnd : pyIsNone (dict_get data d)
        · rcases hzd : pyEqZero (dict_get data d) <;> simp [hnn, hnd, hzd, hfn]
        · simp [hnn, hnd, hfn]
      · simp [hnn, hfn]
    · have hnn := pyIsNone_of_float _ _ hfn
      rcases hfd : pyFloat (dict_get data d) with _ | y
      · rcases hnd : pyIsNone (dict_get data d)
        · rcases hzd : pyEqZero (dict_get data d)
          · simp [hnn, hnd, hzd, hfn, hfd]
          · have h0 := pyFloat_of_eqZero _ hzd
            rw [hfd] at h0
            exact absurd h0 (by simp)
        · simp [hnn, hnd, hfn, hfd]
      · have hnd := pyIsNone_of_float _ _ hfd
        rcases hzd : pyEqZero (dict_get data d)
        · by_cases hy : y = 0
          · subst hy
            simp [hnn, hnd, hzd, hfn, hfd]
          · simp [hnn, hnd, hzd, hfn, hfd, hy]
        · have h0 := pyFloat_of_eqZero _ hzd
          rw [hfd] at h0
          have hy : y = 0 := Option.some.inj h0
          subst hy
          simp [hnn, hnd, hzd, hfn, hfd]
  · intro a b ha hb hb0
    unfold _calculate_ratio
    simp [pyIsNone_of_float _ _ ha, pyIsNone_of_float _ _ hb,
      pyEqZero_of_float_ne _ _ hb hb0, ha, hb, hb0]

/-- Witness for C2: solar current over batch `{442: 10, 86: 4}` is 10/4,
and a zero denominator (`{442: 10, 86: 0}`) gives null. -/
theorem claim_C2_ratio_witness :
    _calculate_ratio 442 86 [(442, PyVal.num 10), (86, PyVal.num 4)] =
      PyVal.num ((10 : ℚ) / 4) ∧
    _calculate_ratio 442 86 [(442, PyVal.num 10), (86, PyVal.num 0)] = PyVal.pNone :=
  ⟨(claim_C2_ratio [(442, PyVal.num 10), (86, PyVal.num 4)] 442 86).2 10 4 rfl rfl
      (by norm_num),
   (claim_C2_ratio [(442, PyVal.num 10), (86, PyVal.num 0)] 442 86).1.mpr
     (Or.inr (Or.inr rfl))⟩

/-- Helper: extracting a single-attribute data mapping whose key parses
to `aid` stores exactly the series' latest value under `aid`. -/
theorem extract_singleton_get (s : String) (aid : Int) (v : PyVal)
    (hk : parsePyIntStr s = some aid) :
    dict_get (latestValuesOfData [(s, v)]) aid = seriesLatest v := by
  simp [latestValuesOfData, extractLoop, hk, dict_insert, dict_get]

/-- C5: last-element-of-list extraction semantics. For a data mapping
carrying an attribute key that parses to `aid`: a series
`[[t1,v1],[t2,v2],[t3,v3]]` yields `v3` regardless of the timestamp
values; more generally the value is the second component of the last
series entry; an empty series yields null, and an absent attribute reads
as null. -/
theorem claim_C5_last_entry (s : String) (aid : Int)
    (hk : parsePyIntStr s = some aid) :
    (∀ t1 v1 t2 v2 t3 v3 : PyVal,
      dict_get (latestValuesOfData [(s, PyVal.pList
        [PyVal.pList [t1, v1], PyVal.pList [t2, v2], PyVal.pList [t3, v3]])]) aid
        = v3) ∧
    (∀ (entries : List PyVal) (t v : PyVal) (tail : List PyVal),
      entries.getLast? = some (PyVal.pList (t :: v :: tail)) →
      dict_get (latestValuesOfData [(s, PyVal.pList entries)]) aid = v) ∧
    dict_get (latestValuesOfData [(s, PyVal.pList [])]) aid = PyVal.pNone ∧
    dict_get (latestValuesOfData []) aid = PyVal.pNone := by
  refine ⟨?_, ?_, ?_, ?_⟩
  · intro t1 v1 t2 v2 t3 v3
    rw [extract_singleton_get s aid _ hk]
    rfl
  · intro entries t v tail hlast
    rw [extract_singleton_get s aid _ hk]
    simp [seriesLatest, hlast]
  · rw [extract_singleton_get s aid _ hk]
    rfl
  · rfl

/-- Witness for C5: key "86" with series `[[30, 7], [10, 99]]` extracts
99 (the last entry's value, although its timestamp 10 is the smaller). -/
theorem claim_C5_last_entry_witness :
    dict_get (latestValuesOfData [("86", PyVal.pList
      [PyVal.pList [PyVal.num 30, PyVal.num 7],
       PyVal.pList [PyVal.num 10, PyVal.num 99]])]) 86 = PyVal.num 99 :=
  (claim_C5_last_entry "86" 86 rfl).2.1
    [PyVal.pList [PyVal.num 30, PyVal.num 7],
     PyVal.pList [PyVal.num 10, PyVal.num 99]]
    (PyVal.num 10) (PyVal.num 99) [] rfl

/-- C10: the batch-value extraction over the data mapping is total (the
embedded function is a total Lean function, so it never raises): a key
that does not parse as an integer is silently skipped, a series that is
not a list — or whose last entry is not a list of at least two
elements — maps its attribute to null, and a parseable key always maps
to its series' latest value. -/
theorem claim_C10_extraction_total :
    (∀ s : String, parsePyIntStr s = none →
      ∀ (v : PyVal) (rest : List (String × PyVal)),
        latestValuesOfData ((s, v) :: rest) = latestValuesOfData rest) ∧
    (∀ vs : List PyVal,
      (∀ (t w : PyVal) (tail : List PyVal),
        vs.getLast? ≠ some (PyVal.pList (t :: w :: tail))) →
      seriesLatest (PyVal.pList vs) = PyVal.pNone) ∧
    (∀ v : PyVal, (∀ vs : List PyVal, v ≠ PyVal.pList vs) →
      seriesLatest v = PyVal.pNone) ∧
    ∀ (s : String) (aid : Int) (v : PyVal), parsePyIntStr s = some aid →
      dict_get (latestValuesOfData [(s, v)]) aid = seriesLatest v := by
  refine ⟨?_, ?_, ?_, ?_⟩
  · intro s hs v rest
    simp [latestValuesOfData, extractLoop, hs]
  · intro vs hshape
    rcases hl : vs.getLast? with _ | val
    · simp [seriesLatest, hl]
    · cases val with
      | pNone => simp [seriesLatest, hl]
      | pBool b => simp [seriesLatest, hl]
      | num q => simp [seriesLatest, hl]
      | pStr s => simp [seriesLatest, hl]
      | pDict es => simp [seriesLatest, hl]
      | pList xs =>
        rcases xs with _ | ⟨x, _ | ⟨y, tail⟩⟩
        · simp [seriesLatest, hl]
        · simp [seriesLatest, hl]
        · exact absurd hl (hshape x y tail)
  · intro v hv
    cases v with
    | pNone => rfl
    | pBool b => rfl
    | num q => rfl
    | pStr s => rfl
    | pList xs => exact absurd rfl (hv xs)
    | pDict es => rfl
  · intro s aid v hk
    exact extract_singleton_get s aid v hk

/-- Witness for C10: the unparseable key "abc" is skipped, a series
whose last entry is a one-element list yields null, and the parseable
key "86" maps to its series' latest value. -/
theorem claim_C10_extraction_total_witness :
    latestValuesOfData [("abc", PyVal.pDict [])] = latestValuesOfData [] ∧
    seriesLatest (PyVal.pList [PyVal.pList [PyVal.num 1]]) = PyVal.pNone ∧
    dict_get (latestValuesOfData [("86", PyVal.num 5)]) 86 =
      seriesLatest (PyVal.num 5) :=
  ⟨claim_C10_extraction_total.1 "abc" rfl (PyVal.pDict []) [],
   claim_C10_extraction_total.2.1 [PyVal.pList [PyVal.num 1]]
     (fun t w tail h => by
       have hx := Option.some.inj h
       exact absurd (PyVal.pList.inj hx) (by simp)),
   claim_C10_extraction_total.2.2.2 "86" 86 (PyVal.num 5) rfl⟩

/-- C6: the attribute-ID list requested by the coordinator has no
duplicates, its members are exactly the union over the active
descriptors of the direct attribute ID (when present) and the IDs of the
derivation dependency list, and it is invariant under reordering of the
descriptor list (set semantics). -/
theorem claim_C6_required_attribute_set
    (descs : List VictronSensorEntityDescription) :
    (computeAttributeIds descs).Nodup ∧
    (∀ i : Int, i ∈ computeAttributeIds descs ↔
      ∃ d ∈ descs, d.attribute_id = some i ∨ i ∈ d.requires) ∧
    ∀ descs2 : List VictronSensorEntityDescription, descs.Perm descs2 →
      computeAttributeIds descs = computeAttributeIds descs2 := by
  have hmem : ∀ (l : List VictronSensorEntityDescription) (i : Int),
      i ∈ computeAttributeIds l ↔
        ∃ d ∈ l, d.attribute_id = some i ∨ i ∈ d.requires := by
    intro l i
    unfold computeAttributeIds
    rw [List.mem_insertionSort, List.mem_dedup, List.mem_append,
      List.mem_filterMap, List.mem_flatMap]
    constructor
    · rintro (⟨d, hd, hid⟩ | ⟨d, hd, hreq⟩)
      · exact ⟨d, hd, Or.inl hid⟩
      · exact ⟨d, hd, Or.inr hreq⟩
    · rintro ⟨d, hd, hid | hreq⟩
      · exact Or.inl ⟨d, hd, hid⟩
      · exact Or.inr ⟨d, hd, hreq⟩
  have hnodup : ∀ l : List VictronSensorEntityDescription,
      (computeAttributeIds l).Nodup := by
    intro l
    unfold computeAttributeIds
    exact (List.perm_insertionSort _ _).symm.nodup (List.nodup_dedup _)
  refine ⟨hnodup descs, hmem descs, ?_⟩
  intro descs2 hperm
  have hsorted : ∀ l : List VictronSensorEntityDescription,
      List.Sorted (fun a b : Int => a ≤ b) (computeAttributeIds l) := by
    intro l
    unfold computeAttributeIds
    exact List.sorted_insertionSort _ _
  refine List.eq_of_perm_of_sorted ?_ (hsorted descs) (hsorted descs2)
  refine List.perm_of_nodup_nodup_toFinset_eq (hnodup descs) (hnodup descs2) ?_
  ext i
  simp only [List.mem_toFinset]
  rw [hmem descs i, hmem descs2 i]
  constructor
  · rintro ⟨d, hd, h⟩
    exact ⟨d, hperm.mem_iff.mp hd, h⟩
  · rintro ⟨d, hd, h⟩
    exact ⟨d, hperm.mem_iff.mpr hd, h⟩

/-- Witness for C6: swapping two active descriptors leaves the requested
attribute-ID list unchanged. -/
theorem claim_C6_required_attribute_set_witness :
    computeAttributeIds [solar_current_desc, battery_voltage_desc] =
      computeAttributeIds [battery_voltage_desc, solar_current_desc] :=
  (claim_C6_required_attribute_set
      [solar_current_desc, battery_voltage_desc]).2.2
    [battery_voltage_desc, solar_current_desc]
    (List.Perm.swap battery_voltage_desc solar_current_desc [])

/-- C7: error classification of the API client. During a batch fetch or
an installation listing, an HTTP response status of 401 or 403 raises
the distinct authentication error `VictronApiAuthError`; every other
HTTP error status and every network/client failure raises the general
`VictronApiError`; the two kinds are distinguishable (`isAuth`
discriminates them). -/
theorem claim_C7_error_classification (status : Nat) :
    ((status = 401 ∨ status = 403) →
      async_get_latest_values (.error (.responseError status)) =
        .error (.VictronApiAuthError "Invalid API token") ∧
      async_get_installations (.error (.responseError status)) =
        .error (.VictronApiAuthError "Invalid API token")) ∧
    (status ≠ 401 → status ≠ 403 →
      async_get_latest_values (.error (.responseError status)) =
        .error (.VictronApiError "Error fetching attribute values") ∧
      async_get_installations (.error (.responseError status)) =
        .error (.VictronApiError "Error fetching installations")) ∧
    async_get_latest_values (.error .clientError) =
      .error (.VictronApiError "Error communicating with Victron API") ∧
    async_get_installations (.error .clientError) =
      .error (.VictronApiError "Error communicating with Victron API") ∧
    (∀ m : String, (VictronApiErr.VictronApiAuthError m).isAuth = true) ∧
    (∀ m : String, (VictronApiErr.VictronApiError m).isAuth = false) := by
  refine ⟨?_, ?_, rfl, rfl, fun m => rfl, fun m => rfl⟩
  · rintro (h | h) <;> subst h <;> exact ⟨rfl, rfl⟩
  · intro h1 h3
    have hb : (status == 401 || status == 403) = false := by
      simp [h1, h3]
    constructor
    · simp [async_get_latest_values, hb]
    · simp [async_get_installations, hb]

/-- Witness for C7: status 401 is classified as an authentication error
and status 500 as a general API error. -/
theorem claim_C7_error_classification_witness :
    async_get_latest_values (.error (.responseError 401)) =
      .error (.VictronApiAuthError "Invalid API token") ∧
    async_get_latest_values (.error (.responseError 500)) =
      .error (.VictronApiError "Error fetching attribute values") :=
  ⟨((claim_C7_error_classification 401).1 (Or.inl rfl)).1,
   ((claim_C7_error_classification 500).2.1 (by decide) (by decide)).1⟩

/-- C8: coordinator refresh behaviour. A successful fetch replaces the
cached batch wholesale and marks the cycle successful; an authentication
error from the gateway surfaces `ConfigEntryAuthFailed` (triggering
re-authentication — fatal for the configuration), while any other typed
API error surfaces `UpdateFailed` (a transient failure that preserves
the previous snapshot and leaves the poll schedule to retry at the next
tick); the two coordinator error kinds are distinct constructors. -/
theorem claim_C8_coordinator_refresh (st : CoordinatorState)
    (batch : RawBatch) (msg : String) :
    coordinatorTick st (.ok batch) = ⟨some batch, true, false⟩ ∧
    coordinatorTick st (.error (.VictronApiAuthError msg)) =
      ⟨st.data, false, true⟩ ∧
    coordinatorTick st (.error (.VictronApiError msg)) =
      ⟨st.data, false, st.reauth_required⟩ ∧
    (coordinatorTick st (.error (.VictronApiError msg))).data = st.data ∧
    _async_update_data (.error (.VictronApiAuthError msg)) =
      .error .ConfigEntryAuthFailed ∧
    (∃ m2 : String, _async_update_data (.error (.VictronApiError msg)) =
      .error (.UpdateFailed m2)) ∧
    ∀ m2 : String,
      CoordinatorFailure.ConfigEntryAuthFailed ≠ CoordinatorFailure.UpdateFailed m2 :=
  ⟨rfl, rfl, rfl, rfl, rfl, ⟨"Error updating Victron data: " ++ msg, rfl⟩,
   fun _ h => CoordinatorFailure.noConfusion h⟩

/-- Witness for C8: from a state holding a snapshot, a transient error
keeps the snapshot while an auth error triggers re-authentication. -/
theorem claim_C8_coordinator_refresh_witness :
    coordinatorTick ⟨some [(81, PyVal.num 12)], true, false⟩
      (.error (.VictronApiError "boom")) =
      ⟨some [(81, PyVal.num 12)], false, false⟩ ∧
    coordinatorTick ⟨some [(81, PyVal.num 12)], true, false⟩
      (.error (.VictronApiAuthError "expired")) =
      ⟨some [(81, PyVal.num 12)], false, true⟩ :=
  ⟨(claim_C8_coordinator_refresh ⟨some [(81, PyVal.num 12)], true, false⟩
      [] "boom").2.2.1,
   (claim_C8_coordinator_refresh ⟨some [(81, PyVal.num 12)], true, false⟩
      [] "expired").2.1⟩

/-- Helper: filtering the default key list against the catalog yields
the full catalog in declared order. -/
theorem default_keys_filterMap :
    DEFAULT_SENSOR_KEYS.filterMap (fun key => SENSOR_MAP_find key) =
      SENSOR_DESCRIPTIONS := rfl

/-- C9: descriptor selection. Unknown keys are filtered out against the
catalog; when the configured key set is unset (`none`), empty, or
becomes empty after filtering, the active descriptor set falls back to
the full default catalog list in declared order, so it is never empty
and always a subset of the catalog. -/
theorem claim_C9_key_fallback (keys : List String) :
    selectedDescriptions none = SENSOR_DESCRIPTIONS ∧
    selectedDescriptions (some []) = SENSOR_DESCRIPTIONS ∧
    (keys.filterMap (fun key => SENSOR_MAP_find key) = [] →
      selectedDescriptions (some keys) = SENSOR_DESCRIPTIONS) ∧
    selectedDescriptions (some keys) ≠ [] ∧
    ∀ d ∈ selectedDescriptions (some keys), d ∈ SENSOR_DESCRIPTIONS := by
  refine ⟨rfl, rfl, ?_, ?_, ?_⟩
  · intro h
    simp only [selectedDescriptions, Option.getD_some]
    rw [h]
    exact default_keys_filterMap
  · simp only [selectedDescriptions, Option.getD_some]
    split
    · rw [default_keys_filterMap]
      intro hnil
      exact List.noConfusion hnil
    · rename_i he
      intro hnil
      rw [hnil] at he
      exact he rfl
  · intro d hd
    simp only [selectedDescriptions, Option.getD_some] at hd
    split at hd
    · rw [default_keys_filterMap] at hd
      exact hd
    · rcases List.mem_filterMap.mp hd with ⟨key, hkey, hfind⟩
      exact List.mem_of_find?_eq_some hfind

/-- Witness for C9: a configuration whose only key is unknown falls back
to the full catalog. -/
theorem claim_C9_key_fallback_witness :
    selectedDescriptions (some ["nope"]) = SENSOR_DESCRIPTIONS :=
  (claim_C9_key_fallback ["nope"]).2.2.1 rfl
